import Mathlib

/-!
Verification of the Master Contact CRM backend (`src/main.py`) against its
specification.

The document store is modelled as an in-memory list of BSON-like documents
(association lists of field name / value pairs); each HTTP handler becomes a
function from the request data and the current store to an outcome and the new
store.  Datetimes are modelled at millisecond precision, which is the precision
of the document store's date type (a BSON datetime is an int64 count of
milliseconds; the driver truncates Python microseconds on encoding).
-/

set_option autoImplicit false

namespace CRM

/-- A calendar datetime at millisecond precision (see the module comment for
why milliseconds).  Only datetimes whose fields are in the usual calendar
ranges are produced by the parser below. -/
structure DateTime where
  year : Nat
  month : Nat
  day : Nat
  hour : Nat
  minute : Nat
  second : Nat
  ms : Nat
  deriving DecidableEq, Repr

/-- Mixed-radix linearisation of a datetime, monotone on datetimes whose
fields are within calendar ranges; used only to compare datetimes. -/
def dtKey (d : DateTime) : Nat :=
  (((((d.year * 13 + d.month) * 32 + d.day) * 24 + d.hour) * 60 + d.minute) * 60
      + d.second) * 1000 + d.ms

/-- Chronological comparison of datetimes. -/
def dtLe (a b : DateTime) : Bool :=
  dtKey a ≤ dtKey b

/-- Gregorian leap year test. -/
def isLeap (y : Nat) : Bool :=
  y % 4 = 0 && (y % 100 ≠ 0 || y % 400 = 0)

/-- Number of days in a month of a given year. -/
def daysInMonth (y m : Nat) : Nat :=
  if m = 2 then (if isLeap y then 29 else 28)
  else if m = 4 || m = 6 || m = 9 || m = 11 then 30
  else 31

/-- Split a character list at every occurrence of a separator character
(the separators are dropped; `n` separators give `n+1` pieces). -/
def splitChar (c : Char) : List Char → List (List Char)
  | [] => [[]]
  | x :: xs =>
    let r := splitChar c xs
    if x = c then [] :: r
    else
      match r with
      | [] => [[x]]
      | h :: t => (x :: h) :: t

/-- Whether the first list is an initial segment of the second. -/
def startsWithL : List Char → List Char → Bool
  | [], _ => true
  | _ :: _, [] => false
  | p :: ps, x :: xs => p = x && startsWithL ps xs

/-- Whether the first list occurs contiguously inside the second. -/
def occursIn (pat : List Char) : List Char → Bool
  | [] => pat.isEmpty
  | x :: xs => startsWithL pat (x :: xs) || occursIn pat xs

/-- Strip leading and trailing whitespace from a character list. -/
def trimChars (l : List Char) : List Char :=
  ((l.dropWhile Char.isWhitespace).reverse.dropWhile Char.isWhitespace).reverse

/-- Model of Python's `str.strip()`: strip leading and trailing whitespace. -/
def trimStr (s : String) : String :=
  String.mk (trimChars s.data)

/-- Model of Python's `str.lower()` (ASCII letters, which is all the model
needs). -/
def strLower (s : String) : String :=
  String.mk (s.data.map Char.toLower)

/-- Decimal value of a digit list. -/
def digitsToNat (l : List Char) : Nat :=
  l.foldl (fun n c => n * 10 + (c.toNat - 48)) 0

/-- Parse a fixed-width run of decimal digits. -/
def parseDigits (w : Nat) (l : List Char) : Option Nat :=
  if l.length = w && l.all Char.isDigit then some (digitsToNat l) else none

/-- Parse the `HH:MM[:SS[.fff|.ffffff]]` time-of-day part accepted by
`datetime.fromisoformat`, returning hour, minute, second and millisecond
(a six-digit fraction is microseconds; the store keeps milliseconds, so it is
truncated by 1000). -/
def parseTimePart (t : List Char) : Option (Nat × Nat × Nat × Nat) := do
  let (hs, ms', secPart) ←
    match splitChar ':' t with
    | [h, mi] => some (h, mi, none)
    | [h, mi, sec] => some (h, mi, some sec)
    | _ => none
  let hh ← parseDigits 2 hs
  let mm ← parseDigits 2 ms'
  let (ss, fff) ←
    match secPart with
    | none => some (0, 0)
    | some sec =>
      match splitChar '.' sec with
      | [s2] => do
        let ss ← parseDigits 2 s2
        pure (ss, 0)
      | [s2, frac] => do
        let ss ← parseDigits 2 s2
        match parseDigits 3 frac with
        | some milli => pure (ss, milli)
        | none => do
          let micro ← parseDigits 6 frac
          pure (ss, micro / 1000)
      | _ => none
  if hh < 24 && mm < 60 && ss < 60 then some (hh, mm, ss, fff) else none

/-- Model of Python's `datetime.fromisoformat` on the canonical
`YYYY-MM-DD[{T,space}HH:MM[:SS[.fff|.ffffff]]]` shapes that the application
exchanges; returns `none` where `fromisoformat` raises `ValueError`. -/
def parseISO (s : String) : Option DateTime := do
  let (ds, ts) ←
    match splitChar 'T' s.data with
    | [_] =>
      match splitChar ' ' s.data with
      | [d2] => some (d2, (none : Option (List Char)))
      | [d2, t2] => some (d2, some t2)
      | _ => none
    | [d, t] => some (d, some t)
    | _ => none
  let (y, m, dd) ←
    match splitChar '-' ds with
    | [ys, ms2, dds] => do
      let y ← parseDigits 4 ys
      let m ← parseDigits 2 ms2
      let dd ← parseDigits 2 dds
      pure (y, m, dd)
    | _ => none
  if 1 ≤ m && m ≤ 12 && 1 ≤ dd && dd ≤ daysInMonth y m then
    match ts with
    | none => some ⟨y, m, dd, 0, 0, 0, 0⟩
    | some t => do
      let (hh, mm, ss, fff) ← parseTimePart t
      some ⟨y, m, dd, hh, mm, ss, fff⟩
  else none

/-- Model of `datetime.combine(d, datetime.max.time())` at the store's
millisecond precision: the calendar date of `d` with time 23:59:59.999. -/
def endOfDay (d : DateTime) : DateTime :=
  ⟨d.year, d.month, d.day, 23, 59, 59, 999⟩

/-- A BSON-like field value.  Compound values (nested lists or maps) are
carried opaquely by their rendered string form, since the code only ever
passes them to `str(...)`. -/
inductive BValue where
  | str (s : String)
  | dt (d : DateTime)
  | oid (s : String)
  | null
  | arrOrMap (flat : String)
  | num (n : Int)
  deriving DecidableEq, Repr

/-- A stored document: an association list of field name / value pairs
(JSON object keys are unique; the model keeps the list as given). -/
abbrev BsonDoc := List (String × BValue)

/-- First value stored under a field name, if any. -/
def getField (d : BsonDoc) (k : String) : Option BValue :=
  match d with
  | [] => none
  | (k2, v) :: rest => if k2 = k then some v else getField rest k

/-- Literal substring containment (model of `$regex` for the
metacharacter-free patterns this application passes through). -/
def containsSub (s pat : String) : Bool :=
  occursIn pat.data s.data

/-- ASCII hexadecimal digit test. -/
def isHexDigit (c : Char) : Bool :=
  c.isDigit || (c ≥ 'a' && c ≤ 'f') || (c ≥ 'A' && c ≤ 'F')

/-- Model of `bson.ObjectId` accepting a string: 24 hexadecimal characters. -/
def isValidObjectId (s : String) : Bool :=
  s.length = 24 && s.toList.all isHexDigit

/-!
## Query Builder (`get_history`, src/main.py lines 154-232)

The MongoDB query dictionary built by `get_history` only ever uses the keys
`$or`, `company_name`, `disposition`, `call_date`, `lead_entry_date` and
`created_at`; the structure `Query` has one optional slot per key.
-/

/-- A single-field condition inside the query: `$regex` with `$options: "i"`
(case-insensitive substring) or a plain `$regex` (case-sensitive substring). -/
inductive FieldCond where
  | regexCI (pat : String)
  | regexCS (pat : String)
  deriving DecidableEq, Repr

/-- The query dictionary built by `get_history`: each field is `none` when the
corresponding key is absent.  Date-valued keys hold a `$gte`/`$lte` pair. -/
structure Query where
  orGroup : Option (List (String × FieldCond)) := none
  company_name : Option FieldCond := none
  disposition : Option String := none
  call_date : Option (DateTime × DateTime) := none
  lead_entry_date : Option (DateTime × DateTime) := none
  created_at : Option (DateTime × DateTime) := none
  deriving DecidableEq, Repr

/-- The filter query parameters of `get_history` (all default to `""`). -/
structure FilterParams where
  search : String := ""
  company : String := ""
  phone : String := ""
  disposition : String := ""
  call_start : String := ""
  call_end : String := ""
  lead_start : String := ""
  lead_end : String := ""
  start : String := ""
  «end» : String := ""
  deriving DecidableEq, Repr

/-- The non-date part of the query construction (src/main.py lines 169-193):
global search, company filter, phone filter, disposition filter, in source
order.  Note the sharp edge: the phone filter appends to any existing `$or`
list (`query.get("$or", []) + [...]`). -/
def baseQuery (p : FilterParams) : Query :=
  let q : Query := {}
  let q := if trimStr p.search = "" then q else
    { q with orGroup := some [
        ("name", FieldCond.regexCI p.search),
        ("company_name", FieldCond.regexCI p.search),
        ("mobile", FieldCond.regexCS p.search),
        ("email", FieldCond.regexCI p.search)] }
  let q := if trimStr p.company = "" then q else
    { q with company_name := some (FieldCond.regexCI p.company) }
  let q := if trimStr p.phone = "" then q else
    { q with orGroup := some ((q.orGroup.getD []) ++ [
        ("mobile", FieldCond.regexCS p.phone),
        ("mobile2", FieldCond.regexCS p.phone)]) }
  let q := if trimStr p.disposition = "" then q else
    { q with disposition := some p.disposition }
  q

/-- Call-date range filter (src/main.py lines 195-200): applied only when both
ends are non-empty; an unparseable end raises (`Except.error`). -/
def callFilter (p : FilterParams) (q : Query) : Except String Query :=
  if p.call_start ≠ "" ∧ p.call_end ≠ "" then
    match parseISO p.call_start, parseISO p.call_end with
    | some a, some b => .ok { q with call_date := some (a, b) }
    | _, _ => .error "Invalid isoformat string"
  else .ok q

/-- Lead-entry-date range filter (src/main.py lines 202-207). -/
def leadFilter (p : FilterParams) (q : Query) : Except String Query :=
  if p.lead_start ≠ "" ∧ p.lead_end ≠ "" then
    match parseISO p.lead_start, parseISO p.lead_end with
    | some a, some b => .ok { q with lead_entry_date := some (a, b) }
    | _, _ => .error "Invalid isoformat string"
  else .ok q

/-- Creation-date range filter (src/main.py lines 209-214): the end bound is
`datetime.combine(fromisoformat(end), datetime.max.time())`, i.e. the end of
the supplied end date. -/
def createdFilter (p : FilterParams) (q : Query) : Except String Query :=
  if p.start ≠ "" ∧ p.«end» ≠ "" then
    match parseISO p.start, parseISO p.«end» with
    | some a, some b => .ok { q with created_at := some (a, endOfDay b) }
    | _, _ => .error "Invalid isoformat string"
  else .ok q

/-- The whole query construction of `get_history` (src/main.py lines 169-214),
section by section in source order; the first filter that raises aborts the
handler. -/
def build_query (p : FilterParams) : Except String Query :=
  match callFilter p (baseQuery p) with
  | .error e => .error e
  | .ok q =>
    match leadFilter p q with
    | .error e => .error e
    | .ok q =>
      match createdFilter p q with
      | .error e => .error e
      | .ok q => .ok q

/-- Evaluate one field condition against the value stored under the field:
a `$regex` matches only string values. -/
def evalCond (c : FieldCond) (v : Option BValue) : Bool :=
  match v with
  | some (.str s) =>
    match c with
    | .regexCI pat => containsSub (strLower s) (strLower pat)
    | .regexCS pat => containsSub s pat
  | _ => false

/-- Evaluate the `$or` group: absent means no constraint, otherwise at least
one alternative must match. -/
def evalOrGroup (g : Option (List (String × FieldCond))) (d : BsonDoc) : Bool :=
  match g with
  | none => true
  | some cs => cs.any fun fc => evalCond fc.2 (getField d fc.1)

/-- Evaluate a `$gte`/`$lte` datetime range against the value stored under a
field: only datetime values can satisfy it. -/
def evalRange (r : Option (DateTime × DateTime)) (v : Option BValue) : Bool :=
  match r with
  | none => true
  | some (lo, hi) =>
    match v with
    | some (.dt t) => dtLe lo t && dtLe t hi
    | _ => false

/-- Document-store evaluation of every key of the query other than `$or`,
combined with logical AND. -/
def evalRest (q : Query) (d : BsonDoc) : Bool :=
  (match q.company_name with
    | none => true
    | some c => evalCond c (getField d "company_name"))
    && (match q.disposition with
        | none => true
        | some v => getField d "disposition" = some (.str v))
    && evalRange q.call_date (getField d "call_date")
    && evalRange q.lead_entry_date (getField d "lead_entry_date")
    && evalRange q.created_at (getField d "created_at")

/-- Document-store evaluation of the built query: the `$or` group and every
other present key are combined with logical AND. -/
def evalQuery (q : Query) (d : BsonDoc) : Bool :=
  evalOrGroup q.orGroup d && evalRest q d

/-!
## Pagination Engine and `get_history` response
-/

/-- `skip = (page - 1) * limit` (src/main.py line 216). -/
def skipCalc (page limit : Nat) : Nat :=
  (page - 1) * limit

/-- `pages = (total + limit - 1) // limit` (src/main.py line 225). -/
def pagesCalc (total limit : Nat) : Nat :=
  (total + limit - 1) / limit

/-- Sort key used by `sort("created_at", -1)`: the stored creation datetime
(documents without a datetime there are not ordered by this model; the claims
never depend on their relative order). -/
def createdKey (d : BsonDoc) : Nat :=
  match getField d "created_at" with
  | some (.dt t) => dtKey t
  | _ => 0

/-- Insert into a list kept in descending `createdKey` order, after any
equal keys (stable). -/
def insertDesc (d : BsonDoc) : List BsonDoc → List BsonDoc
  | [] => [d]
  | e :: rest =>
    if createdKey d ≤ createdKey e then e :: insertDesc d rest
    else d :: e :: rest

/-- Newest-first sort on the stored creation datetime. -/
def sortByCreatedDesc (l : List BsonDoc) : List BsonDoc :=
  l.foldr insertDesc []

/-- `doc["_id"] = str(doc["_id"])` (src/main.py line 221). -/
def stringifyId (d : BsonDoc) : BsonDoc :=
  d.map fun kv =>
    match kv.2 with
    | .oid s => if kv.1 = "_id" then (kv.1, .str s) else kv
    | _ => kv

/-- The JSON body returned by `get_history`. -/
structure HistoryResp where
  history : List BsonDoc
  page : Nat
  pages : Nat
  total : Nat
  deriving DecidableEq, Repr

/-- The page/limit query parameters of `get_history`; the framework enforces
`page ≥ 1` and `1 ≤ limit ≤ 200` before the handler runs. -/
structure PageParams where
  page : Nat := 1
  limit : Nat := 50
  deriving DecidableEq, Repr

/-- `get_history` (src/main.py lines 154-232): builds the query (an
unparseable supplied date bound raises, modelled by `Except.error`), filters
and sorts the store, pages the result and reports the totals. -/
def get_history (store : List BsonDoc) (pp : PageParams) (p : FilterParams) :
    Except String HistoryResp :=
  match build_query p with
  | .error e => .error e
  | .ok q =>
    let matching := store.filter (evalQuery q)
    let pageDocs :=
      ((sortByCreatedDesc matching).drop (skipCalc pp.page pp.limit)).take pp.limit
    let total := matching.length
    .ok ⟨pageDocs.map stringifyId, pp.page, pagesCalc total pp.limit, total⟩

/-!
## Contact Service outcomes
-/

/-- Outcome of a mutating handler, by HTTP status: a generic success body, the
delete success body (which carries `deleted_count`), or an `HTTPException`
with its status code. -/
inductive Outcome where
  | okMsg
  | okDelete (deleted_count : Nat)
  | err (code : Nat)
  deriving DecidableEq, Repr

/-- `True` exactly for the 400/422-equivalent validation outcomes. -/
def isValidationOutcome : Outcome → Bool
  | .err c => c = 400 || c = 422
  | _ => false

/-!
## `submit_contact` (src/main.py lines 97-151)
-/

/-- The form fields of `POST /submit`; required fields arrive as strings (the
framework rejects an absent required field with 422 before the handler runs,
but an empty or blank string is accepted), optional fields as `Option`. -/
structure SubmitInput where
  company_name : String
  name : String
  designation : String
  mobile : String
  mobile2 : Option String := none
  landline : Option String := none
  email : String
  email2 : Option String := none
  linkedin : Option String := none
  address : String
  existing_client : String
  partner_name : Option String := none
  call_date : String
  lead_entry_date : String
  comments : Option String := none
  disposition : String
  deriving DecidableEq, Repr

/-- `x.strip() if x else None`: Python `None` and `""` are falsy, any other
string (including whitespace-only) is stripped. -/
def optStrField (o : Option String) : BValue :=
  match o with
  | none => .null
  | some s => if s = "" then .null else .str (trimStr s)

/-- `x.strip().lower() if x else None` (used for `email2`). -/
def optEmailField (o : Option String) : BValue :=
  match o with
  | none => .null
  | some s => if s = "" then .null else .str (strLower (trimStr s))

/-- The contact document built by `submit_contact` from an input whose two
date fields parsed to `cd` and `ld`, stamped with the server clock `now`.
The store-assigned `_id` is external and omitted from the model. -/
def mkContact (now : DateTime) (inp : SubmitInput) (cd ld : DateTime) : BsonDoc :=
  [("company_name", .str (trimStr inp.company_name)),
   ("name", .str (trimStr inp.name)),
   ("designation", .str (trimStr inp.designation)),
   ("mobile", .str (trimStr inp.mobile)),
   ("mobile2", optStrField inp.mobile2),
   ("landline", optStrField inp.landline),
   ("email", .str (strLower (trimStr inp.email))),
   ("email2", optEmailField inp.email2),
   ("linkedin", optStrField inp.linkedin),
   ("address", .str (trimStr inp.address)),
   ("existing_client", .str inp.existing_client),
   ("partner_name", optStrField inp.partner_name),
   ("call_date", .dt cd),
   ("lead_entry_date", .dt ld),
   ("comments", optStrField inp.comments),
   ("disposition", .str inp.disposition),
   ("created_at", .dt now)]

/-- `submit_contact`: parses the two date strings first; any exception (in
particular an unparseable date) is caught by the blanket `except` and turned
into HTTP 500 with nothing inserted; otherwise the contact document is built
and appended to the store. -/
def submit_contact (now : DateTime) (store : List BsonDoc) (inp : SubmitInput) :
    Outcome × List BsonDoc :=
  match parseISO inp.call_date, parseISO inp.lead_entry_date with
  | some cd, some ld => (.okMsg, store ++ [mkContact now inp cd ld])
  | _, _ => (.err 500, store)

/-!
## `update_contact` (src/main.py lines 235-253) and the store's `update_one`

The document store is an external collaborator; `update_one` with a `$set`
document is modelled as a partial merge on the first document whose `_id`
matches, reporting how many documents matched and how many were actually
modified.
-/

/-- Whether a document's `_id` field is the given object id. -/
def docHasId (d : BsonDoc) (id : String) : Bool :=
  getField d "_id" = some (.oid id)

/-- First document of the store whose `_id` matches. -/
def findDoc (store : List BsonDoc) (id : String) : Option BsonDoc :=
  match store with
  | [] => none
  | d :: rest => if docHasId d id then some d else findDoc rest id

/-- `$set` of a single field: replace the value in place if the field exists,
append the field otherwise. -/
def setField (d : BsonDoc) (k : String) (v : BValue) : BsonDoc :=
  if d.any (fun kv => kv.1 = k) then
    d.map fun kv => if kv.1 = k then (k, v) else kv
  else d ++ [(k, v)]

/-- `$set` of a whole partial-field map. -/
def applySet (d : BsonDoc) (data : List (String × BValue)) : BsonDoc :=
  data.foldl (fun acc kv => setField acc kv.1 kv.2) d

/-- Partial merge of a non-empty `$set` map on the first document whose `_id`
matches; returns `(matched_count, modified_count, new store)`, where
`modified_count` counts only a document whose content actually changed. -/
def setMerge (store : List BsonDoc) (id : String) (data : List (String × BValue)) :
    Nat × Nat × List BsonDoc :=
  match store with
  | [] => (0, 0, [])
  | d :: rest =>
    if docHasId d id then
      let d2 := applySet d data
      (1, if d2 = d then 0 else 1, d2 :: rest)
    else
      let (ma, mo, rest2) := setMerge rest id data
      (ma, mo, d :: rest2)

/-- Store `update_one({_id: id}, {$set: data})`.  MongoDB rejects an empty
`$set` document outright (WriteError code 9, "$set is empty"), modelled as
`Except.error`; a non-empty map is a partial merge on the first matching
document. -/
def updateOne (store : List BsonDoc) (id : String) (data : List (String × BValue)) :
    Except String (Nat × Nat × List BsonDoc) :=
  if data = [] then .error "WriteError 9: the set operator document is empty"
  else .ok (setMerge store id data)

/-- One step of the date re-parse loop of `update_contact` (src/main.py lines
241-243): a string-valued `call_date` or `lead_entry_date` entry is replaced
by its parsed datetime; an unparseable one raises (`Except.error`). -/
def reparseEntry (kv : String × BValue) : Except String (String × BValue) :=
  if kv.1 = "call_date" ∨ kv.1 = "lead_entry_date" then
    match kv.2 with
    | .str s =>
      match parseISO s with
      | some t => .ok (kv.1, .dt t)
      | none => .error "Invalid isoformat string"
    | _ => .ok kv
  else .ok kv

/-- The date re-parse loop of `update_contact` over the whole body map; the
first unparseable date aborts the handler, and the framework reports the
escaped exception as HTTP 500 since the handler catches nothing. -/
def reparseDates : List (String × BValue) →
    Except String (List (String × BValue))
  | [] => .ok []
  | kv :: rest =>
    match reparseEntry kv with
    | .error e => .error e
    | .ok kv2 =>
      match reparseDates rest with
      | .error e => .error e
      | .ok rest2 => .ok (kv2 :: rest2)

/-- `update_contact`: 400 on a malformed id, then the date re-parse (an
unparseable date escapes as 500), then `update_one` — whose rejection of an
empty `$set` map also escapes the try-less handler as 500; otherwise
`modified_count == 0` (no matching document, or a merge that changed nothing)
is reported as 404. -/
def update_contact (store : List BsonDoc) (id : String)
    (data : List (String × BValue)) : Outcome × List BsonDoc :=
  if isValidObjectId id then
    match reparseDates data with
    | .error _ => (.err 500, store)
    | .ok data2 =>
      match updateOne store id data2 with
      | .error _ => (.err 500, store)
      | .ok (_, modified, store2) =>
        if modified = 0 then (.err 404, store2)
        else (.okMsg, store2)
  else (.err 400, store)

/-!
## `delete_contact` (src/main.py lines 336-354)
-/

/-- Store `delete_one({_id: id})`: remove the first matching document and
report how many were deleted. -/
def deleteOne (store : List BsonDoc) (id : String) : Nat × List BsonDoc :=
  match store with
  | [] => (0, [])
  | d :: rest =>
    if docHasId d id then (1, rest)
    else
      let (n, rest2) := deleteOne rest id
      (n, d :: rest2)

/-- `delete_contact`: everything runs inside one `try` whose handler is a bare
`except Exception` that re-raises as HTTP 500.  An invalid id makes the
`ObjectId` constructor raise, which the handler turns into 500; and when
nothing was deleted the code raises `HTTPException(404)` **inside the try**,
so that 404 is itself caught by `except Exception` and re-raised as 500. -/
def delete_contact (store : List BsonDoc) (contact_id : String) :
    Outcome × List BsonDoc :=
  if isValidObjectId contact_id then
    let (n, store2) := deleteOne store contact_id
    if n = 1 then (.okDelete n, store2)
    else (.err 500, store2)
  else (.err 500, store)

/-!
## `export_excel` (src/main.py lines 256-319)
-/

/-- Whether a stored document has a date-typed `created_at`
(`{"created_at": {"$type": "date"}}`). -/
def hasDateCreated (d : BsonDoc) : Bool :=
  match getField d "created_at" with
  | some (.dt _) => true
  | _ => false

/-- Zero-padded decimal rendering. -/
def padNum (w n : Nat) : String :=
  let s := toString n
  if s.length < w then String.mk (List.replicate (w - s.length) '0') ++ s else s

/-- `strftime("%Y-%m-%d %H:%M:%S")`. -/
def formatDT (d : DateTime) : String :=
  padNum 4 d.year ++ "-" ++ padNum 2 d.month ++ "-" ++ padNum 2 d.day ++ " " ++
    padNum 2 d.hour ++ ":" ++ padNum 2 d.minute ++ ":" ++ padNum 2 d.second

/-- The per-field sanitising step of the export: object ids and datetimes are
rendered as strings, nulls become the empty string, compound values their
flattened string form, everything else passes through. -/
def sanitizeValue (v : BValue) : BValue :=
  match v with
  | .oid s => .str s
  | .dt t => .str (formatDT t)
  | .null => .str ""
  | .arrOrMap flat => .str flat
  | v => v

/-- Sanitise one document field by field. -/
def sanitizeDoc (d : BsonDoc) : BsonDoc :=
  d.map fun kv => (kv.1, sanitizeValue kv.2)

/-- Column set of `pd.DataFrame(cleaned)`: the union of all field names in
first-seen order. -/
def buildColumns (docs : List BsonDoc) : List String :=
  docs.foldl (fun cols d =>
    d.foldl (fun acc kv => if kv.1 ∈ acc then acc else acc ++ [kv.1]) cols) []

/-- The tabular artifact produced by the export: columns, and one row of
optional cells per record (`none` marks a field the record lacks, pandas
NaN). -/
structure Table where
  cols : List String
  rows : List (List (Option BValue))
  deriving DecidableEq, Repr

/-- `export_excel`: date-typed rows sorted newest-first, then the rows with a
malformed `created_at`; each document sanitised field by field; the
`created_at` column dropped from the final table. -/
def export_excel (store : List BsonDoc) : Table :=
  let good := sortByCreatedDesc (store.filter hasDateCreated)
  let bad := store.filter fun d => ¬ hasDateCreated d
  let cleaned := (good ++ bad).map sanitizeDoc
  let cols := (buildColumns cleaned).filter fun c => c ≠ "created_at"
  ⟨cols, cleaned.map fun d => cols.map fun c => getField d c⟩

/-- `Except.ok`-ness, used to state that a handler did not raise. -/
def exceptIsOk {ε α : Type} : Except ε α → Bool
  | .ok _ => true
  | .error _ => false

/-!
## Concrete data used by witnesses and counterexamples
-/

/-- A well-formed 24-hex-character object id. -/
def oid24 : String := "652f8c1e9d4a2b3c4d5e6f70"

/-- A server timestamp. -/
def t0 : DateTime := ⟨2024, 1, 1, 0, 0, 0, 0⟩

/-- A later timestamp, distinct from `t0`. -/
def t1 : DateTime := ⟨2025, 2, 2, 0, 0, 0, 0⟩

/-- A stored contact document with a creation timestamp. -/
def d7 : BsonDoc := [("_id", .oid oid24), ("name", .str "A"), ("created_at", .dt t0)]

/-- `d7` after an update that overwrote its creation timestamp. -/
def d7set : BsonDoc := [("_id", .oid oid24), ("name", .str "A"), ("created_at", .dt t1)]

/-- A stored contact document without a creation timestamp. -/
def d6 : BsonDoc := [("_id", .oid oid24), ("name", .str "A")]

/-!
## Theorems for the claims
-/

/-- C9: exporting an empty collection does not fail and produces the empty
table: zero data rows and an empty column set. -/
theorem c9_export_empty : export_excel [] = ⟨[], []⟩ :=
  rfl

/-- C4: deleting a well-formed identifier that matches no stored record does
NOT produce the 404 the specification promises: the `HTTPException(404)` is
raised inside the handler's `try` block, caught by the blanket
`except Exception`, and re-raised as a 500 server error.  On success the
handler does report `deleted_count = 1`. -/
theorem c4_delete_nonexistent_500 :
    delete_contact [] oid24 = (Outcome.err 500, []) ∧
    delete_contact [d6] oid24 = (Outcome.okDelete 1, []) :=
  ⟨rfl, rfl⟩

/-- C2: for every page ≥ 1 and limit in [1,200], the skip is
`(page-1)*limit` and the page count is the ceiling of `total/limit`
(characterised as the least count covering `total`), with `total = 0`
giving zero pages. -/
theorem c2_pagination_skip_pages (page limit total : Nat)
    (hp : 1 ≤ page) (h1 : 1 ≤ limit) (h2 : limit ≤ 200) :
    skipCalc page limit = (page - 1) * limit ∧
    (total = 0 → pagesCalc total limit = 0) ∧
    (0 < total →
      limit * (pagesCalc total limit - 1) < total ∧
      total ≤ limit * pagesCalc total limit) := by
  refine ⟨rfl, ?_, ?_⟩
  · intro ht
    subst ht
    show (0 + limit - 1) / limit = 0
    exact Nat.div_eq_of_lt (by omega)
  · intro ht
    unfold pagesCalc
    have hl0 : 0 < limit := h1
    have hd := Nat.div_add_mod (total + limit - 1) limit
    have hm : (total + limit - 1) % limit < limit := Nat.mod_lt _ hl0
    have hq1 : 1 ≤ (total + limit - 1) / limit :=
      (Nat.one_le_div_iff hl0).mpr (by omega)
    obtain ⟨q2, hq2⟩ : ∃ t, (total + limit - 1) / limit = t + 1 :=
      ⟨(total + limit - 1) / limit - 1, by omega⟩
    rw [hq2] at hd ⊢
    have e1 : limit * (q2 + 1) = limit * q2 + limit := by ring
    rw [e1] at hd
    simp only [Nat.add_sub_cancel, e1]
    generalize limit * q2 = X at hd ⊢
    omega

/-- C2 witness: page 3 with limit 50 over 101 records. -/
theorem c2_witness :
    50 * (pagesCalc 101 50 - 1) < 101 ∧ 101 ≤ 50 * pagesCalc 101 50 :=
  (c2_pagination_skip_pages 3 50 101 (by decide) (by decide) (by decide)).2.2
    (by decide)

/-- A create input whose two date fields parse but whose `name` is
whitespace-only and whose `mobile2` is whitespace-only. -/
def w8 : SubmitInput :=
  { company_name := "C", name := " ", designation := "D", mobile := "1",
    mobile2 := some " ", email := "e", address := "A", existing_client := "yes",
    call_date := "2024-01-15", lead_entry_date := "2024-01-10",
    disposition := "hot" }

/-- The parsed `call_date` of `w8`. -/
def cd8 : DateTime := ⟨2024, 1, 15, 0, 0, 0, 0⟩

/-- The parsed `lead_entry_date` of `w8`. -/
def ld8 : DateTime := ⟨2024, 1, 10, 0, 0, 0, 0⟩

/-- A create input identical to `w8` except that its `call_date` does not
parse. -/
def w5 : SubmitInput :=
  { company_name := "C", name := "N", designation := "D", mobile := "1",
    email := "e", address := "A", existing_client := "yes",
    call_date := "not-a-date", lead_entry_date := "2024-01-10",
    disposition := "hot" }

/-- C5 counterexample: a create input with an unparseable `call_date` fails
with HTTP 500 — a server error, not a 400/422 validation outcome — so the
claimed validation-error kind is wrong (the record is indeed not inserted). -/
theorem c5_counterexample :
    submit_contact t0 [] w5 = (Outcome.err 500, []) ∧
    isValidationOutcome (Outcome.err 500) = false :=
  ⟨rfl, rfl⟩

/-- C5 amended: an unparseable `call_date` or `lead_entry_date` makes create
fail with a 500 server error and insert nothing; required fields that are
blank after trimming are not rejected at all — whenever the two dates parse,
create succeeds and appends the contact document (with the blank values
trimmed to the empty string), whatever the field contents. -/
theorem c5_amended_outcomes (now : DateTime) (store : List BsonDoc)
    (inp : SubmitInput) :
    ((parseISO inp.call_date = none ∨ parseISO inp.lead_entry_date = none) →
      submit_contact now store inp = (Outcome.err 500, store)) ∧
    (∀ cd ld, parseISO inp.call_date = some cd →
      parseISO inp.lead_entry_date = some ld →
      (submit_contact now store inp).1 = Outcome.okMsg ∧
      (submit_contact now store inp).2 = store ++ [mkContact now inp cd ld]) := by
  constructor
  · intro h
    rcases h1 : parseISO inp.call_date with _ | cd <;>
      rcases h2 : parseISO inp.lead_entry_date with _ | ld <;>
        simp [submit_contact, h1, h2] <;> rcases h with h | h <;> simp_all
  · intro cd ld h1 h2
    simp [submit_contact, h1, h2]

/-- C5 witness: the blank-`name` input `w8` is accepted and stored. -/
theorem c5_witness :
    (submit_contact t0 [] w8).1 = Outcome.okMsg ∧
    (submit_contact t0 [] w8).2 = [] ++ [mkContact t0 w8 cd8 ld8] :=
  (c5_amended_outcomes t0 [] w8).2 cd8 ld8 rfl rfl

/-- C7 counterexample: `update_contact` applies an arbitrary `$set` map, so an
update that supplies `created_at` overwrites the stored creation timestamp
(`t0` becomes `t1`), contradicting the claim that no update can change it. -/
theorem c7_counterexample :
    update_contact [d7] oid24 [("created_at", BValue.dt t1)]
      = (Outcome.okMsg, [d7set]) ∧
    getField d7 "created_at" = some (BValue.dt t0) ∧
    getField d7set "created_at" = some (BValue.dt t1) ∧ t1 ≠ t0 :=
  ⟨rfl, rfl, rfl, by decide⟩

/-- C7 amended: `created_at` is stamped from the server clock at insertion,
for every create input (it is never taken from the input); but the update
handler's partial-field map is unrestricted, so an update that supplies
`created_at` does overwrite it, as the concrete overwrite of `d7` shows. -/
theorem c7_amended_created_at (now : DateTime) (store : List BsonDoc)
    (inp : SubmitInput) :
    (∀ cd ld, parseISO inp.call_date = some cd →
      parseISO inp.lead_entry_date = some ld →
      (submit_contact now store inp).2 = store ++ [mkContact now inp cd ld] ∧
      getField (mkContact now inp cd ld) "created_at" = some (BValue.dt now)) ∧
    (update_contact [d7] oid24 [("created_at", BValue.dt t1)]
        = (Outcome.okMsg, [d7set]) ∧
      getField d7 "created_at" = some (BValue.dt t0) ∧
      getField d7set "created_at" = some (BValue.dt t1) ∧ t1 ≠ t0) := by
  refine ⟨fun cd ld h1 h2 => ⟨by simp [submit_contact, h1, h2], rfl⟩,
    rfl, rfl, rfl, by decide⟩

/-- C7 witness: inserting `w8` at server time `t0` stamps `created_at = t0`. -/
theorem c7_witness :
    (submit_contact t0 [] w8).2 = [] ++ [mkContact t0 w8 cd8 ld8] ∧
    getField (mkContact t0 w8 cd8 ld8) "created_at" = some (BValue.dt t0) :=
  (c7_amended_created_at t0 [] w8).1 cd8 ld8 rfl rfl

/-- C8 counterexample: the optional field `mobile2` of `w8` is whitespace-only
(`" "`, which is truthy in Python), so it is stripped and stored as the empty
string — not as null, contradicting the claim that blank optional fields are
stored as null and the empty string is never stored. -/
theorem c8_counterexample :
    submit_contact t0 [] w8 = (Outcome.okMsg, [mkContact t0 w8 cd8 ld8]) ∧
    getField (mkContact t0 w8 cd8 ld8) "mobile2" = some (BValue.str "") :=
  ⟨rfl, rfl⟩

/-- C8 amended: an optional string field that is absent or exactly empty is
stored as null, but a whitespace-only (non-empty) value is stripped and stored
as the empty string — so the empty string can be stored.  Each of the six
optional fields of the stored document is `optStrField` (for `email2`,
`optEmailField`) of the corresponding input. -/
theorem c8_amended_optional_blanks (now : DateTime) (store : List BsonDoc)
    (inp : SubmitInput) (cd ld : DateTime)
    (h1 : parseISO inp.call_date = some cd)
    (h2 : parseISO inp.lead_entry_date = some ld) :
    (submit_contact now store inp).2 = store ++ [mkContact now inp cd ld] ∧
    (getField (mkContact now inp cd ld) "mobile2" = some (optStrField inp.mobile2) ∧
     getField (mkContact now inp cd ld) "landline" = some (optStrField inp.landline) ∧
     getField (mkContact now inp cd ld) "email2" = some (optEmailField inp.email2) ∧
     getField (mkContact now inp cd ld) "linkedin" = some (optStrField inp.linkedin) ∧
     getField (mkContact now inp cd ld) "partner_name" = some (optStrField inp.partner_name) ∧
     getField (mkContact now inp cd ld) "comments" = some (optStrField inp.comments)) ∧
    (∀ o : Option String, (o = none ∨ o = some "") →
      optStrField o = BValue.null ∧ optEmailField o = BValue.null) ∧
    (∀ s : String, s ≠ "" →
      optStrField (some s) = BValue.str (trimStr s) ∧
      optEmailField (some s) = BValue.str (strLower (trimStr s))) := by
  refine ⟨by simp [submit_contact, h1, h2], ⟨rfl, rfl, rfl, rfl, rfl, rfl⟩, ?_, ?_⟩
  · rintro o (rfl | rfl) <;> simp [optStrField, optEmailField]
  · intro s hs
    simp [optStrField, optEmailField, hs]

/-- C8 witness: the whitespace-only value `" "` is stored as the empty
string (and lower-cased to the empty string for `email2`). -/
theorem c8_witness :
    optStrField (some " ") = BValue.str (trimStr " ") ∧
    optEmailField (some " ") = BValue.str (strLower (trimStr " ")) :=
  (c8_amended_optional_blanks t0 [] w8 cd8 ld8 rfl rfl).2.2.2 " " (by decide)

/-!
## Inversion lemmas for the query builder
-/

/-- Inverting a successful call-date filter step. -/
lemma callFilter_inv (p : FilterParams) (q0 q1 : Query)
    (h : callFilter p q0 = .ok q1) :
    ((p.call_start ≠ "" ∧ p.call_end ≠ "") ∧
      ∃ a b, parseISO p.call_start = some a ∧ parseISO p.call_end = some b ∧
        q1 = { q0 with call_date := some (a, b) }) ∨
    ((p.call_start = "" ∨ p.call_end = "") ∧ q1 = q0) := by
  unfold callFilter at h
  split at h
  case isTrue hc =>
    left
    refine ⟨hc, ?_⟩
    rcases hA : parseISO p.call_start with _ | a <;>
      rcases hB : parseISO p.call_end with _ | b <;>
        simp only [hA, hB] at h <;> try cases h
    exact ⟨a, b, rfl, rfl, rfl⟩
  case isFalse hc =>
    right
    refine ⟨?_, by injection h with h2; exact h2.symm⟩
    rcases not_and_or.mp hc with h1 | h1
    · exact Or.inl (not_not.mp h1)
    · exact Or.inr (not_not.mp h1)

/-- Inverting a successful lead-entry-date filter step. -/
lemma leadFilter_inv (p : FilterParams) (q0 q1 : Query)
    (h : leadFilter p q0 = .ok q1) :
    ((p.lead_start ≠ "" ∧ p.lead_end ≠ "") ∧
      ∃ a b, parseISO p.lead_start = some a ∧ parseISO p.lead_end = some b ∧
        q1 = { q0 with lead_entry_date := some (a, b) }) ∨
    ((p.lead_start = "" ∨ p.lead_end = "") ∧ q1 = q0) := by
  unfold leadFilter at h
  split at h
  case isTrue hc =>
    left
    refine ⟨hc, ?_⟩
    rcases hA : parseISO p.lead_start with _ | a <;>
      rcases hB : parseISO p.lead_end with _ | b <;>
        simp only [hA, hB] at h <;> try cases h
    exact ⟨a, b, rfl, rfl, rfl⟩
  case isFalse hc =>
    right
    refine ⟨?_, by injection h with h2; exact h2.symm⟩
    rcases not_and_or.mp hc with h1 | h1
    · exact Or.inl (not_not.mp h1)
    · exact Or.inr (not_not.mp h1)

/-- Inverting a successful creation-date filter step (note the end-of-day
upper bound). -/
lemma createdFilter_inv (p : FilterParams) (q0 q1 : Query)
    (h : createdFilter p q0 = .ok q1) :
    ((p.start ≠ "" ∧ p.«end» ≠ "") ∧
      ∃ a b, parseISO p.start = some a ∧ parseISO p.«end» = some b ∧
        q1 = { q0 with created_at := some (a, endOfDay b) }) ∨
    ((p.start = "" ∨ p.«end» = "") ∧ q1 = q0) := by
  unfold createdFilter at h
  split at h
  case isTrue hc =>
    left
    refine ⟨hc, ?_⟩
    rcases hA : parseISO p.start with _ | a <;>
      rcases hB : parseISO p.«end» with _ | b <;>
        simp only [hA, hB] at h <;> try cases h
    exact ⟨a, b, rfl, rfl, rfl⟩
  case isFalse hc =>
    right
    refine ⟨?_, by injection h with h2; exact h2.symm⟩
    rcases not_and_or.mp hc with h1 | h1
    · exact Or.inl (not_not.mp h1)
    · exact Or.inr (not_not.mp h1)

/-- A successful build decomposes into three successful filter steps over the
base query. -/
lemma build_query_inv (p : FilterParams) (q : Query)
    (h : build_query p = .ok q) :
    ∃ q1 q2, callFilter p (baseQuery p) = .ok q1 ∧ leadFilter p q1 = .ok q2 ∧
      createdFilter p q2 = .ok q := by
  unfold build_query at h
  split at h
  · exact Except.noConfusion h
  next q1 hc =>
    split at h
    · exact Except.noConfusion h
    next q2 hl =>
      split at h
      · exact Except.noConfusion h
      next q3 hr =>
        injection h with h3
        subst h3
        exact ⟨q1, q2, hc, hl, hr⟩

/-- The base query carries no date filter. -/
lemma baseQuery_dates (p : FilterParams) :
    (baseQuery p).call_date = none ∧ (baseQuery p).lead_entry_date = none ∧
      (baseQuery p).created_at = none := by
  simp only [baseQuery]
  split_ifs <;> exact ⟨rfl, rfl, rfl⟩

/-- A date filter step never changes the `$or` group. -/
lemma callFilter_orGroup (p : FilterParams) (q0 q1 : Query)
    (h : callFilter p q0 = .ok q1) : q1.orGroup = q0.orGroup := by
  rcases callFilter_inv p q0 q1 h with ⟨_, a, b, _, _, rfl⟩ | ⟨_, rfl⟩ <;> rfl

/-- A date filter step never changes the `$or` group. -/
lemma leadFilter_orGroup (p : FilterParams) (q0 q1 : Query)
    (h : leadFilter p q0 = .ok q1) : q1.orGroup = q0.orGroup := by
  rcases leadFilter_inv p q0 q1 h with ⟨_, a, b, _, _, rfl⟩ | ⟨_, rfl⟩ <;> rfl

/-- A date filter step never changes the `$or` group. -/
lemma createdFilter_orGroup (p : FilterParams) (q0 q1 : Query)
    (h : createdFilter p q0 = .ok q1) : q1.orGroup = q0.orGroup := by
  rcases createdFilter_inv p q0 q1 h with ⟨_, a, b, _, _, rfl⟩ | ⟨_, rfl⟩ <;> rfl

/-- Per-field characterisation of a successfully built query: each date
filter is present exactly when both of its ends were supplied non-empty, with
the parsed bounds (end-of-day-extended for the creation-date filter). -/
lemma build_query_fields (p : FilterParams) (q : Query)
    (h : build_query p = .ok q) :
    ((p.call_start ≠ "" ∧ p.call_end ≠ "" ∧
        ∃ a b, parseISO p.call_start = some a ∧ parseISO p.call_end = some b ∧
          q.call_date = some (a, b)) ∨
      ((p.call_start = "" ∨ p.call_end = "") ∧ q.call_date = none)) ∧
    ((p.lead_start ≠ "" ∧ p.lead_end ≠ "" ∧
        ∃ a b, parseISO p.lead_start = some a ∧ parseISO p.lead_end = some b ∧
          q.lead_entry_date = some (a, b)) ∨
      ((p.lead_start = "" ∨ p.lead_end = "") ∧ q.lead_entry_date = none)) ∧
    ((p.start ≠ "" ∧ p.«end» ≠ "" ∧
        ∃ a b, parseISO p.start = some a ∧ parseISO p.«end» = some b ∧
          q.created_at = some (a, endOfDay b)) ∨
      ((p.start = "" ∨ p.«end» = "") ∧ q.created_at = none)) := by
  obtain ⟨q1, q2, hc, hl, hr⟩ := build_query_inv p q h
  obtain ⟨hbc, hbl, hbcr⟩ := baseQuery_dates p
  rcases callFilter_inv p _ _ hc with ⟨⟨hc1, hc2⟩, a1, b1, hpa, hpb, rfl⟩ | ⟨hcE, rfl⟩ <;>
    rcases leadFilter_inv p _ _ hl with ⟨⟨hl1, hl2⟩, a2, b2, hla2, hlb2, rfl⟩ | ⟨hlE, rfl⟩ <;>
      rcases createdFilter_inv p _ _ hr with ⟨⟨hr1, hr2⟩, a3, b3, hra3, hrb3, rfl⟩ | ⟨hrE, rfl⟩ <;>
        refine ⟨?_, ?_, ?_⟩ <;>
          first
            | exact Or.inl ⟨hc1, hc2, a1, b1, hpa, hpb, rfl⟩
            | exact Or.inl ⟨hl1, hl2, a2, b2, hla2, hlb2, rfl⟩
            | exact Or.inl ⟨hr1, hr2, a3, b3, hra3, hrb3, rfl⟩
            | exact Or.inr ⟨hcE, hbc⟩
            | exact Or.inr ⟨hlE, hbl⟩
            | exact Or.inr ⟨hrE, hbcr⟩

/-- C1: when both the free-text search and the phone filter are non-blank,
the built query has a single `$or` group holding the four free-text
alternatives (case-insensitive on name, company_name, email; plain on mobile)
with the two phone alternatives appended to the same group — not a separate
AND-ed conjunct — and every other key of the query is AND-combined with that
group under evaluation. -/
theorem c1_search_phone_single_or_group (p : FilterParams) (q : Query)
    (hs : trimStr p.search ≠ "") (hph : trimStr p.phone ≠ "")
    (h : build_query p = .ok q) :
    q.orGroup = some [
      ("name", FieldCond.regexCI p.search),
      ("company_name", FieldCond.regexCI p.search),
      ("mobile", FieldCond.regexCS p.search),
      ("email", FieldCond.regexCI p.search),
      ("mobile", FieldCond.regexCS p.phone),
      ("mobile2", FieldCond.regexCS p.phone)] ∧
    (∀ d, evalQuery q d =
      (evalOrGroup q.orGroup d && evalQuery { q with orGroup := none } d)) := by
  obtain ⟨q1, q2, hc, hl, hr⟩ := build_query_inv p q h
  have e1 : q1.orGroup = (baseQuery p).orGroup := callFilter_orGroup p _ _ hc
  have e2 : q2.orGroup = q1.orGroup := leadFilter_orGroup p _ _ hl
  have e3 : q.orGroup = q2.orGroup := createdFilter_orGroup p _ _ hr
  have base : (baseQuery p).orGroup = some [
      ("name", FieldCond.regexCI p.search),
      ("company_name", FieldCond.regexCI p.search),
      ("mobile", FieldCond.regexCS p.search),
      ("email", FieldCond.regexCI p.search),
      ("mobile", FieldCond.regexCS p.phone),
      ("mobile2", FieldCond.regexCS p.phone)] := by
    simp only [baseQuery]
    split_ifs <;> rfl
  exact ⟨by rw [e3, e2, e1, base], fun d => rfl⟩

/-- The concrete filter input of the C1 witness: a free-text search and a
phone filter together. -/
def p1 : FilterParams := { search := "acme", phone := "99" }

/-- The query built from `p1`. -/
def q1exp : Query :=
  { orGroup := some [
      ("name", FieldCond.regexCI "acme"),
      ("company_name", FieldCond.regexCI "acme"),
      ("mobile", FieldCond.regexCS "acme"),
      ("email", FieldCond.regexCI "acme"),
      ("mobile", FieldCond.regexCS "99"),
      ("mobile2", FieldCond.regexCS "99")] }

/-- C1 witness: searching "acme" with phone filter "99" yields the one
six-alternative `$or` group. -/
theorem c1_witness :
    build_query p1 = Except.ok q1exp ∧
    q1exp.orGroup = some [
      ("name", FieldCond.regexCI "acme"),
      ("company_name", FieldCond.regexCI "acme"),
      ("mobile", FieldCond.regexCS "acme"),
      ("email", FieldCond.regexCI "acme"),
      ("mobile", FieldCond.regexCS "99"),
      ("mobile2", FieldCond.regexCS "99")] :=
  ⟨rfl, (c1_search_phone_single_or_group p1 q1exp (by decide) (by decide) rfl).1⟩

/-- C3: a date-range filter appears in the built query exactly when both ends
of its pair were supplied non-empty; with every pair one-sided or absent the
build succeeds untouched (one-sided ranges are ignored without error); the
creation-date filter's upper bound is the end of the supplied end date,
extended to 23:59:59.999. -/
theorem c3_date_range_filters (p : FilterParams) :
    (∀ q, build_query p = .ok q →
      ((q.call_date ≠ none ↔ p.call_start ≠ "" ∧ p.call_end ≠ "") ∧
       (q.lead_entry_date ≠ none ↔ p.lead_start ≠ "" ∧ p.lead_end ≠ "") ∧
       (q.created_at ≠ none ↔ p.start ≠ "" ∧ p.«end» ≠ "") ∧
       (∀ a b, q.created_at = some (a, b) →
         ∃ e, parseISO p.«end» = some e ∧ b = endOfDay e))) ∧
    ((p.call_start = "" ∨ p.call_end = "") →
      (p.lead_start = "" ∨ p.lead_end = "") →
      (p.start = "" ∨ p.«end» = "") →
      build_query p = .ok (baseQuery p)) ∧
    (∀ dte, endOfDay dte = ⟨dte.year, dte.month, dte.day, 23, 59, 59, 999⟩) := by
  refine ⟨?_, ?_, fun _ => rfl⟩
  · intro q h
    obtain ⟨hcall, hlead, hcr⟩ := build_query_fields p q h
    refine ⟨?_, ?_, ?_, ?_⟩
    · rcases hcall with ⟨h1, h2, a, b, _, _, hq⟩ | ⟨hE, hq⟩ <;> rw [hq]
      · simp [h1, h2]
      · rcases hE with e | e <;> simp [e]
    · rcases hlead with ⟨h1, h2, a, b, _, _, hq⟩ | ⟨hE, hq⟩ <;> rw [hq]
      · simp [h1, h2]
      · rcases hE with e | e <;> simp [e]
    · rcases hcr with ⟨h1, h2, a, b, _, _, hq⟩ | ⟨hE, hq⟩ <;> rw [hq]
      · simp [h1, h2]
      · rcases hE with e | e <;> simp [e]
    · intro a b hab
      rcases hcr with ⟨h1, h2, a3, b3, hra, hrb, hq⟩ | ⟨hE, hq⟩
      · rw [hq] at hab
        simp only [Option.some.injEq, Prod.mk.injEq] at hab
        exact ⟨b3, hrb, hab.2.symm⟩
      · rw [hq] at hab
        cases hab
  · intro hcE hlE hrE
    have nc : ¬(p.call_start ≠ "" ∧ p.call_end ≠ "") := by
      rcases hcE with e | e <;> simp [e]
    have nl : ¬(p.lead_start ≠ "" ∧ p.lead_end ≠ "") := by
      rcases hlE with e | e <;> simp [e]
    have nr : ¬(p.start ≠ "" ∧ p.«end» ≠ "") := by
      rcases hrE with e | e <;> simp [e]
    simp [build_query, callFilter, leadFilter, createdFilter, nc, nl, nr]

/-- The concrete filter input of the C3 witness: a complete call-date range,
a one-sided (ignored) lead-entry range, and a complete creation-date range. -/
def p3 : FilterParams :=
  { call_start := "2024-01-01", call_end := "2024-01-31",
    lead_start := "2024-01-05",
    start := "2024-02-01", «end» := "2024-02-03" }

/-- The query built from `p3`. -/
def q3 : Query :=
  { call_date := some (⟨2024, 1, 1, 0, 0, 0, 0⟩, ⟨2024, 1, 31, 0, 0, 0, 0⟩),
    created_at := some (⟨2024, 2, 1, 0, 0, 0, 0⟩, ⟨2024, 2, 3, 23, 59, 59, 999⟩) }

/-- C3 witness: on `p3` the build succeeds with the call-date filter present,
the one-sided lead-entry range ignored, and the creation-date upper bound at
end of day. -/
theorem c3_witness :
    build_query p3 = Except.ok q3 ∧ q3.call_date ≠ none ∧
    q3.lead_entry_date = none := by
  have h := (c3_date_range_filters p3).1 q3 rfl
  refine ⟨rfl, h.1.mpr ⟨by decide, by decide⟩, ?_⟩
  by_contra hne
  exact (h.2.1.mp hne).2 rfl

/-- A no-op partial merge leaves the store unchanged and reports
`modified_count = 0`. -/
lemma setMerge_noop (store : List BsonDoc) (id : String)
    (data : List (String × BValue))
    (h : (∃ d, findDoc store id = some d ∧ applySet d data = d) ∨
      findDoc store id = none) :
    ∃ ma, setMerge store id data = (ma, 0, store) := by
  induction store with
  | nil => exact ⟨0, rfl⟩
  | cons d0 rest ih =>
    by_cases hid : docHasId d0 id = true
    · have hf : findDoc (d0 :: rest) id = some d0 := by simp [findDoc, hid]
      rcases h with ⟨d, hd, hset⟩ | hnone
      · rw [hf] at hd
        injection hd with hd
        subst hd
        exact ⟨1, by simp [setMerge, hid, hset]⟩
      · rw [hf] at hnone
        cases hnone
    · have hf : findDoc (d0 :: rest) id = findDoc rest id := by
        simp [findDoc, hid]
      rw [hf] at h
      obtain ⟨ma, hup⟩ := ih h
      exact ⟨ma, by simp [setMerge, hid, hup]⟩

/-- The date re-parse never turns a non-empty body map into an empty one. -/
lemma reparseDates_ne_nil (data data2 : List (String × BValue))
    (h : reparseDates data = .ok data2) (hne : data ≠ []) : data2 ≠ [] := by
  cases data with
  | nil => exact absurd rfl hne
  | cons kv rest =>
    unfold reparseDates at h
    split at h
    · exact Except.noConfusion h
    next kv2 hkv =>
      split at h
      · exact Except.noConfusion h
      next rest2 hrest =>
        injection h with h2
        subst h2
        exact List.cons_ne_nil _ _

/-- C6 counterexample: a `PATCH` with the empty body map — a case the claim
explicitly includes — is NOT reported as 404: the store rejects the empty
`$set` document (WriteError code 9), the try-less handler lets the failure
escape, and the caller sees a 500 server error. -/
theorem c6_counterexample :
    update_contact [d6] oid24 [] = (Outcome.err 500, [d6]) ∧
    Outcome.err 500 ≠ Outcome.err 404 :=
  ⟨rfl, by decide⟩

/-- C6 amended: for a well-formed identifier, an update whose NON-EMPTY
(date-re-parsed) map would change nothing on the matched record is reported
exactly like an update matching no record at all: 404 NotFound with the store
untouched, the two cases indistinguishable to the caller; the empty map
instead escapes as a 500 server error. -/
theorem c6_noop_update_not_found (store : List BsonDoc) (id : String)
    (data data2 : List (String × BValue))
    (hid : isValidObjectId id = true)
    (hne : data ≠ [])
    (hrp : reparseDates data = Except.ok data2)
    (hnoop : (∃ d, findDoc store id = some d ∧ applySet d data2 = d) ∨
      findDoc store id = none) :
    update_contact store id data = (Outcome.err 404, store) := by
  have h2 : data2 ≠ [] := reparseDates_ne_nil data data2 hrp hne
  obtain ⟨ma, hup⟩ := setMerge_noop store id data2 hnoop
  simp [update_contact, updateOne, hid, hrp, h2, hup]

/-- C6 witness: a non-empty no-op map (setting `name` to its current value)
on an existing record is reported as 404, like a miss. -/
theorem c6_witness :
    update_contact [d6] oid24 [("name", BValue.str "A")]
      = (Outcome.err 404, [d6]) :=
  c6_noop_update_not_found [d6] oid24 [("name", BValue.str "A")]
    [("name", BValue.str "A")] rfl (by decide) rfl (Or.inl ⟨d6, rfl, rfl⟩)

/-- C10: when both ends of any date-range pair are supplied non-empty but at
least one end is not a valid ISO date, `get_history` raises (the error
escapes the handler) instead of ignoring the filter or returning a page. -/
theorem c10_invalid_date_bound_raises (store : List BsonDoc) (pp : PageParams)
    (p : FilterParams)
    (hbad :
      (p.call_start ≠ "" ∧ p.call_end ≠ "" ∧
        (parseISO p.call_start = none ∨ parseISO p.call_end = none)) ∨
      (p.lead_start ≠ "" ∧ p.lead_end ≠ "" ∧
        (parseISO p.lead_start = none ∨ parseISO p.lead_end = none)) ∨
      (p.start ≠ "" ∧ p.«end» ≠ "" ∧
        (parseISO p.start = none ∨ parseISO p.«end» = none))) :
    ∃ e, get_history store pp p = .error e := by
  have hne : ∀ q, build_query p ≠ .ok q := by
    intro q h
    obtain ⟨hcall, hlead, hcr⟩ := build_query_fields p q h
    rcases hbad with ⟨h1, h2, hn⟩ | ⟨h1, h2, hn⟩ | ⟨h1, h2, hn⟩
    · rcases hcall with ⟨_, _, a, b, ha, hb, _⟩ | ⟨hE, _⟩
      · rcases hn with hn | hn <;> simp_all
      · rcases hE with e | e <;> simp_all
    · rcases hlead with ⟨_, _, a, b, ha, hb, _⟩ | ⟨hE, _⟩
      · rcases hn with hn | hn <;> simp_all
      · rcases hE with e | e <;> simp_all
    · rcases hcr with ⟨_, _, a, b, ha, hb, _⟩ | ⟨hE, _⟩
      · rcases hn with hn | hn <;> simp_all
      · rcases hE with e | e <;> simp_all
  rcases hb : build_query p with e | q
  · exact ⟨e, by simp [get_history, hb]⟩
  · exact absurd hb (hne q)

/-- The concrete filter input of the C10 witness: a complete call-date range
whose end bound is not a date. -/
def p10 : FilterParams := { call_start := "2024-01-01", call_end := "garbage" }

/-- C10 witness: `get_history` on `p10` is an error, not a result page. -/
theorem c10_witness : exceptIsOk (get_history [] {} p10) = false := by
  obtain ⟨e, he⟩ := c10_invalid_date_bound_raises [] {} p10
    (Or.inl ⟨by decide, by decide, Or.inr (by decide)⟩)
  rw [he]
  rfl

end CRM
